import Mathlib

set_option autoImplicit false

/-
Shallow embedding of src/Agent.py: a linear research-automation pipeline of
four perceive/decide/act stages (input, retrieval, summarization, storage)
driven by a Workflow orchestrator.  Python exceptions are modelled by the
`Except` monad carrying the exception message; the external collaborators
(the HTTP transport, the OpenAI completion service, the file system) are
modelled as explicit oracle parameters, so every definition is executable.
-/

namespace AgentPy

/-- A raised Python exception, modelled by its message. -/
abbrev Err := String

/-! ### Orchestrator (`Workflow`), over abstract stages -/

/-- An observable call the orchestrator makes on stage number `i`
(0-based position in the stage sequence). -/
inductive Event where
  | perceiveCall (i : Nat)
  | actCall (i : Nat)
deriving DecidableEq, Repr

/-- A pipeline stage as `Workflow.run` sees it (duck-typed in the source).
`perceive` stores its argument as the stage's working input and may raise;
`act` computes from the stored input and may raise.  Since `run` always
calls `perceive current` immediately before `act`, `act` is modelled as a
function of that same `current` value. -/
structure AgentSpec (V : Type) where
  perceive : V → Except Err Unit
  act : V → Except Err V

/-- The orchestrator: holds an ordered sequence of stages. -/
structure Workflow (V : Type) where
  agents : List (AgentSpec V)

/-- The loop body of `Workflow.run`, instrumented with the trace of
perceive/act calls actually issued; `i` is the position of the first
remaining stage.  `current_data` starts as `input_data` and is replaced by
each stage's `act` result; a raised exception stops the loop at once. -/
def Workflow.runAux {V : Type} (i : Nat) :
    List (AgentSpec V) → V → List Event × Except Err V
  | [], current_data => ([], Except.ok current_data)
  | a :: rest, current_data =>
    match a.perceive current_data with
    | Except.error e => ([Event.perceiveCall i], Except.error e)
    | Except.ok _ =>
      match a.act current_data with
      | Except.error e => ([Event.perceiveCall i, Event.actCall i], Except.error e)
      | Except.ok next =>
        (Event.perceiveCall i :: Event.actCall i :: (Workflow.runAux (i + 1) rest next).1,
         (Workflow.runAux (i + 1) rest next).2)

/-- `Workflow.run input_data`: drives `input_data` through the stages in
sequence order (then prints a completion notice, not modelled).  Returns
the trace of calls issued together with the outcome. -/
def Workflow.run {V : Type} (wf : Workflow V) (input_data : V) :
    List Event × Except Err V :=
  Workflow.runAux 0 wf.agents input_data

/-- The complete trace of a run of `n` stages starting at position `i`:
each stage perceives then acts, exactly once, in order. -/
def fullTrace : Nat → Nat → List Event
  | _, 0 => []
  | i, n + 1 => Event.perceiveCall i :: Event.actCall i :: fullTrace (i + 1) n

/-- Modelled from the spec: "run(initial_input): sets current =
initial_input; for each stage in sequence order: call
stage.perceive(current), then current = stage.act()", with raised errors
propagating immediately.  Used to compare the source's `Workflow.run`
against the spec's description of the data flow. -/
def runSpec {V : Type} : List (AgentSpec V) → V → Except Err V
  | [], current => Except.ok current
  | a :: rest, current =>
    match a.perceive current with
    | Except.error e => Except.error e
    | Except.ok _ =>
      match a.act current with
      | Except.error e => Except.error e
      | Except.ok next => runSpec rest next

/-! ### Input stage -/

/-- How Python renders a value inside an f-string: `None` renders as the
text "None", a string renders as itself. -/
def pythonStr : Option String → String
  | none => "None"
  | some s => s

/-- `InputAgent`: holds the perceived topic; `__init__` sets it to `None`. -/
structure InputAgent where
  topic : Option String

/-- A freshly constructed `InputAgent` (its `__init__`). -/
def InputAgent.new : InputAgent := ⟨none⟩

/-- `InputAgent.perceive`: records the research topic. -/
def InputAgent.perceive (_a : InputAgent) (input_data : String) : InputAgent :=
  ⟨some input_data⟩

/-- `InputAgent.decide`: the status notice, embedding the stored topic the
way a Python f-string would. -/
def InputAgent.decide (a : InputAgent) : String :=
  "Proceeding with research on: " ++ pythonStr a.topic

/-- `InputAgent.act`: prints the decision and returns the stored topic.
Result is (the printed line, the returned value). -/
def InputAgent.act (a : InputAgent) : String × Option String :=
  (a.decide, a.topic)

/-! ### Retrieval stage -/

/-- An article record: a mapping with an optional `content` field
(`none` when the key is absent); its other descriptive fields are
irrelevant to the pipeline and not modelled. -/
structure Article where
  content : Option String
deriving DecidableEq, Repr

/-- The query parameters `requests.get` is called with:
`{"q": topic, "apiKey": api_key}`. -/
structure QueryParams where
  q : String
  apiKey : String
deriving DecidableEq, Repr

/-- The parsed JSON body of a news response: an optional `articles` field. -/
structure NewsBody where
  articles : Option (List Article)

/-- An HTTP response: a status code and the result of `response.json()`
(which raises on an unparsable body). -/
structure Response where
  status_code : Nat
  body : Except Err NewsBody

/-- `RetrievalAgent.decide`: one synchronous `requests.get` to the
configured endpoint with parameters `{q: topic, apiKey: api_key}`.  The
transport is the oracle `httpGet`; a network exception is its `error`
result and is not caught here. -/
def RetrievalAgent.decide (httpGet : QueryParams → Except Err Response)
    (api_key topic : String) : Except Err Response :=
  httpGet ⟨topic, api_key⟩

/-- `RetrievalAgent.act`: calls `decide`; on a 200 response extracts the
`articles` field (defaulting to `[]` when absent) and returns it, on any
other status prints a failure notice and returns `[]`.  An exception from
`requests.get` or from `response.json()` is not caught and propagates. -/
def RetrievalAgent.act (httpGet : QueryParams → Except Err Response)
    (api_key topic : String) : Except Err (List Article) :=
  match RetrievalAgent.decide httpGet api_key topic with
  | Except.error e => Except.error e
  | Except.ok response =>
    if response.status_code = 200 then
      match response.body with
      | Except.error e => Except.error e
      | Except.ok payload => Except.ok (payload.articles.getD [])
    else
      Except.ok []

/-! ### Summarization stage -/

/-- Python's `str.strip()`: the string with whitespace removed from both
ends, written over the character list so it evaluates by reduction. -/
def pyStrip (s : String) : String :=
  ⟨((s.data.dropWhile Char.isWhitespace).reverse.dropWhile Char.isWhitespace).reverse⟩

/-- One element of the completion response's `choices` list. -/
structure Choice where
  text : String
deriving DecidableEq, Repr

/-- A completion response, exposing its `choices` list. -/
structure Completion where
  choices : List Choice
deriving DecidableEq, Repr

/-- The request `openai.Completion.create` is called with. -/
structure CompletionRequest where
  model : String
  prompt : String
  max_tokens : Nat
deriving DecidableEq, Repr

/-- The completion request built for one article's content: fixed model
"text-davinci-003", the summarization prompt embedding the content, and
`max_tokens = 100`. -/
def summarizeRequest (content : String) : CompletionRequest :=
  ⟨"text-davinci-003", "Summarize the following article:\n\n" ++ content, 100⟩

/-- The body of `SummarizationAgent.decide`'s loop, instrumented with the
list of model-inference calls actually issued (second component).  For
each article in order: if `content` is empty or absent, append the
placeholder without calling the model; otherwise issue one completion call
(the oracle `complete`), and on any raised exception — including the
`IndexError` from `choices[0]` on an empty `choices` list — append the
failure placeholder; on success append `choices[0].text.strip()`. -/
def SummarizationAgent.decideTrace
    (complete : CompletionRequest → Except Err Completion) :
    List Article → List String × List CompletionRequest
  | [] => ([], [])
  | article :: rest =>
    let content := article.content.getD ""
    if content = "" then
      let r := SummarizationAgent.decideTrace complete rest
      ("No content to summarize." :: r.1, r.2)
    else
      let req := summarizeRequest content
      let summary :=
        match complete req with
        | Except.error _ => "Summary unavailable."
        | Except.ok response =>
          match response.choices.head? with
          | none => "Summary unavailable."
          | some choice => pyStrip choice.text
      let r := SummarizationAgent.decideTrace complete rest
      (summary :: r.1, req :: r.2)

/-- `SummarizationAgent.decide`: the summaries list produced by the loop. -/
def SummarizationAgent.decide
    (complete : CompletionRequest → Except Err Completion)
    (articles : List Article) : List String :=
  (SummarizationAgent.decideTrace complete articles).1

/-- `SummarizationAgent.act`: prints each summary with a 1-based index and
returns the list from `decide` unchanged. -/
def SummarizationAgent.act
    (complete : CompletionRequest → Except Err Completion)
    (articles : List Article) : List String :=
  SummarizationAgent.decide complete articles

/-- How `decide` treats a single article, as a standalone function; the
element-wise reading of the loop. -/
def SummarizationAgent.summarizeOne
    (complete : CompletionRequest → Except Err Completion)
    (article : Article) : String :=
  let content := article.content.getD ""
  if content = "" then
    "No content to summarize."
  else
    match complete (summarizeRequest content) with
    | Except.error _ => "Summary unavailable."
    | Except.ok response =>
      match response.choices.head? with
      | none => "Summary unavailable."
      | some choice => pyStrip choice.text

/-! ### Storage stage -/

/-- The content of the fixed output location `research_summaries.txt`. -/
structure OutputFile where
  content : String
deriving DecidableEq, Repr

/-- `FileStorageAgent.decide`: the fixed confirmation message. -/
def FileStorageAgent.decide : String :=
  "Summaries saved to research_summaries.txt."

/-- The write loop of `FileStorageAgent.act`: one `file.write` call per
summary, each writing `summary + "\n\n"`.  `writeFault i` is the exception
the i-th write call raises, if any; a raised write stops the loop (the
`with` statement still closes the file, keeping what was written so far). -/
def FileStorageAgent.writeAll (writeFault : Nat → Option Err) :
    Nat → List String → OutputFile → OutputFile × Except Err Unit
  | _, [], file => (file, Except.ok ())
  | i, summary :: rest, file =>
    match writeFault i with
    | some e => (file, Except.error e)
    | none =>
      FileStorageAgent.writeAll writeFault (i + 1) rest
        ⟨file.content ++ summary ++ "\n\n"⟩

/-- `FileStorageAgent.act`: opens `research_summaries.txt` in mode "w"
(truncating it to empty), writes each perceived summary followed by a
blank-line separator in order, then returns `decide`'s confirmation
message.  `openFault` is the exception `open` raises, if any; neither an
open nor a write failure is caught.  Result is (the file's final content,
the outcome). -/
def FileStorageAgent.act (openFault : Option Err) (writeFault : Nat → Option Err)
    (summaries : List String) (file : OutputFile) : OutputFile × Except Err String :=
  match openFault with
  | some e => (file, Except.error e)
  | none =>
    match FileStorageAgent.writeAll writeFault 0 summaries ⟨""⟩ with
    | (file1, Except.ok _) => (file1, Except.ok FileStorageAgent.decide)
    | (file1, Except.error e) => (file1, Except.error e)

/-- The text `act` leaves in the file when every write succeeds: each
summary followed by a blank-line separator, in order. -/
def storedText : List String → String
  | [] => ""
  | summary :: rest => summary ++ "\n\n" ++ storedText rest

/-! ### Module top level -/

/-- Whether a value read with `os.environ.get` is falsy in Python:
`None` (variable absent) or the empty string. -/
def pyFalsy : Option String → Bool
  | none => true
  | some s => s == ""

/-- The module top-level credential check: reads `OPENAI_API_KEY` and
`NEWS_API_KEY` from the environment and raises a `ValueError` naming the
first falsy one, in that order; otherwise yields both keys. -/
def credentialCheck (env : String → Option String) : Except Err (String × String) :=
  let openai_api_key := env "OPENAI_API_KEY"
  let news_api_key := env "NEWS_API_KEY"
  if pyFalsy openai_api_key then
    Except.error "The environment variable OPENAI_API_KEY is not set."
  else if pyFalsy news_api_key then
    Except.error "The environment variable NEWS_API_KEY is not set."
  else
    Except.ok (openai_api_key.getD "", news_api_key.getD "")

/-- Process startup: the credential check runs at import time, before any
agent is constructed or any stage runs; only if it passes does `__main__`
build the workflow and run it.  The trace is empty when startup fails, so
no stage executes and no network call is attempted. -/
def moduleStartup {V : Type} (env : String → Option String)
    (agents : List (AgentSpec V)) (input_data : V) : List Event × Except Err V :=
  match credentialCheck env with
  | Except.error e => ([], Except.error e)
  | Except.ok _ => Workflow.run ⟨agents⟩ input_data

/-! ### Concrete inputs used to exercise the theorems -/

/-- A stage over `Nat` that always succeeds, returning its input plus one. -/
def demoStep : AgentSpec Nat :=
  ⟨fun _ => Except.ok (), fun v => Except.ok (v + 1)⟩

/-- A stage whose `act` raises. -/
def demoFailingStep : AgentSpec Nat :=
  ⟨fun _ => Except.ok (), fun _ => Except.error "boom"⟩

/-- A three-stage workflow whose middle stage fails. -/
def demoFailingRun : Workflow Nat := ⟨[demoStep, demoFailingStep, demoStep]⟩

/-- A two-stage workflow that succeeds. -/
def demoGoodRun : Workflow Nat := ⟨[demoStep, demoStep]⟩

/-- An environment where both credentials are set but `OPENAI_API_KEY` is
the empty string. -/
def envEmptyOpenAI : String → Option String := fun k =>
  if k = "OPENAI_API_KEY" then some "" else some "x"

/-! ### Theorems -/

theorem runAux_trace_prefix {V : Type} (agents : List (AgentSpec V)) :
    ∀ (i : Nat) (v : V), (Workflow.runAux i agents v).1 <+: fullTrace i agents.length := by
  induction agents with
  | nil =>
    intro i v
    simp [Workflow.runAux]
  | cons a rest ih =>
    intro i v
    cases hp : a.perceive v with
    | error e =>
      refine ⟨Event.actCall i :: fullTrace (i + 1) rest.length, ?_⟩
      simp [Workflow.runAux, hp, fullTrace]
    | ok u =>
      cases ha : a.act v with
      | error e1 =>
        refine ⟨fullTrace (i + 1) rest.length, ?_⟩
        simp [Workflow.runAux, hp, ha, fullTrace]
      | ok next =>
        obtain ⟨t, ht⟩ := ih (i + 1) next
        refine ⟨t, ?_⟩
        simp [Workflow.runAux, hp, ha, fullTrace, ht]

theorem runAux_ok_trace {V : Type} (agents : List (AgentSpec V)) :
    ∀ (i : Nat) (v w : V), (Workflow.runAux i agents v).2 = Except.ok w →
      (Workflow.runAux i agents v).1 = fullTrace i agents.length := by
  induction agents with
  | nil =>
    intro i v w _
    simp [Workflow.runAux, fullTrace]
  | cons a rest ih =>
    intro i v w h
    cases hp : a.perceive v with
    | error e => simp [Workflow.runAux, hp] at h
    | ok u =>
      cases ha : a.act v with
      | error e1 => simp [Workflow.runAux, hp, ha] at h
      | ok next =>
        simp only [Workflow.runAux, hp, ha] at h
        simp [Workflow.runAux, hp, ha, fullTrace, ih (i + 1) next w h]

theorem runAux_error_trace {V : Type} (agents : List (AgentSpec V)) :
    ∀ (i : Nat) (v : V) (e : Err), (Workflow.runAux i agents v).2 = Except.error e →
      ∃ k, k < agents.length ∧
        ((Workflow.runAux i agents v).1 = fullTrace i k ++ [Event.perceiveCall (i + k)] ∨
         (Workflow.runAux i agents v).1 =
           fullTrace i k ++ [Event.perceiveCall (i + k), Event.actCall (i + k)]) := by
  induction agents with
  | nil =>
    intro i v e h
    simp [Workflow.runAux] at h
  | cons a rest ih =>
    intro i v e h
    cases hp : a.perceive v with
    | error e1 =>
      refine ⟨0, Nat.succ_pos _, Or.inl ?_⟩
      simp [Workflow.runAux, hp, fullTrace]
    | ok u =>
      cases ha : a.act v with
      | error e1 =>
        refine ⟨0, Nat.succ_pos _, Or.inr ?_⟩
        simp [Workflow.runAux, hp, ha, fullTrace]
      | ok next =>
        simp only [Workflow.runAux, hp, ha] at h
        obtain ⟨k, hk, hcase⟩ := ih (i + 1) next e h
        have hik : i + 1 + k = i + (k + 1) := by omega
        refine ⟨k + 1, by simpa using hk, ?_⟩
        cases hcase with
        | inl hc =>
          refine Or.inl ?_
          simp [Workflow.runAux, hp, ha, fullTrace, hc, hik]
        | inr hc =>
          refine Or.inr ?_
          simp [Workflow.runAux, hp, ha, fullTrace, hc, hik]

theorem runAux_snd_eq_runSpec {V : Type} (agents : List (AgentSpec V)) :
    ∀ (i : Nat) (v : V), (Workflow.runAux i agents v).2 = runSpec agents v := by
  induction agents with
  | nil => intro i v; simp [Workflow.runAux, runSpec]
  | cons a rest ih =>
    intro i v
    cases hp : a.perceive v with
    | error e => simp [Workflow.runAux, runSpec, hp]
    | ok u =>
      cases ha : a.act v with
      | error e1 => simp [Workflow.runAux, runSpec, hp, ha]
      | ok next => simp [Workflow.runAux, runSpec, hp, ha, ih (i + 1) next]

/-- Claim C1: for every stage sequence and initial input, `Workflow.run`
sets the current value to the initial input and, for each stage in order,
calls its perceive with the current value and replaces the current value
with its act result (the run's outcome refines the spec's fold `runSpec`);
the call trace is a prefix of the canonical one-perceive-one-act-per-stage
trace, on success it is exactly that trace (every stage exactly once,
strictly in order), and on a raised error the trace stops at the failing
stage's own calls, so the error propagates immediately and no later stage
executes. -/
theorem workflow_run_stages_in_order {V : Type} (wf : Workflow V) (input_data : V) :
    (Workflow.run wf input_data).2 = runSpec wf.agents input_data ∧
    (Workflow.run wf input_data).1 <+: fullTrace 0 wf.agents.length ∧
    (∀ w, (Workflow.run wf input_data).2 = Except.ok w →
      (Workflow.run wf input_data).1 = fullTrace 0 wf.agents.length) ∧
    (∀ e, (Workflow.run wf input_data).2 = Except.error e →
      ∃ k, k < wf.agents.length ∧
        ((Workflow.run wf input_data).1 = fullTrace 0 k ++ [Event.perceiveCall k] ∨
         (Workflow.run wf input_data).1 =
           fullTrace 0 k ++ [Event.perceiveCall k, Event.actCall k])) := by
  refine ⟨runAux_snd_eq_runSpec wf.agents 0 input_data,
          runAux_trace_prefix wf.agents 0 input_data,
          fun w h => runAux_ok_trace wf.agents 0 input_data w h,
          fun e h => ?_⟩
  simpa using runAux_error_trace wf.agents 0 input_data e h

/-- Witness for C1: a successful two-stage run produces the full trace, and
a run whose second stage raises stops right there. -/
theorem workflow_run_stages_in_order_witness :
    (Workflow.run demoGoodRun 0).1 = fullTrace 0 2 ∧
    (∃ k, k < 3 ∧
      ((Workflow.run demoFailingRun 0).1 = fullTrace 0 k ++ [Event.perceiveCall k] ∨
       (Workflow.run demoFailingRun 0).1 =
         fullTrace 0 k ++ [Event.perceiveCall k, Event.actCall k])) := by
  constructor
  · exact (workflow_run_stages_in_order demoGoodRun 0).2.2.1 2 rfl
  · exact (workflow_run_stages_in_order demoFailingRun 0).2.2.2 "boom" rfl

/-- Claim C10: calling the Input stage's `act` without any prior `perceive`
does not raise: it silently returns the constructor-initialized `None`
topic and prints the status notice with `None` embedded in it. -/
theorem input_act_without_perceive :
    InputAgent.act InputAgent.new = ("Proceeding with research on: None", none) :=
  rfl

/-- Claim C3: on a 200 response whose parsed body carries an `articles`
field, Retrieval's `act` returns exactly that sequence (hence the same
length, in the same order); on a 200 response whose body lacks the field it
returns the empty sequence; on any non-200 status it returns the empty
sequence. -/
theorem retrieval_act_articles
    (httpGet : QueryParams → Except Err Response) (api_key topic : String) :
    (∀ response payload arts,
        httpGet ⟨topic, api_key⟩ = Except.ok response →
        response.status_code = 200 →
        response.body = Except.ok payload →
        payload.articles = some arts →
        RetrievalAgent.act httpGet api_key topic = Except.ok arts) ∧
    (∀ response payload,
        httpGet ⟨topic, api_key⟩ = Except.ok response →
        response.status_code = 200 →
        response.body = Except.ok payload →
        payload.articles = none →
        RetrievalAgent.act httpGet api_key topic = Except.ok []) ∧
    (∀ response,
        httpGet ⟨topic, api_key⟩ = Except.ok response →
        response.status_code ≠ 200 →
        RetrievalAgent.act httpGet api_key topic = Except.ok []) := by
  refine ⟨?_, ?_, ?_⟩
  · intro response payload arts h1 h2 h3 h4
    simp [RetrievalAgent.act, RetrievalAgent.decide, h1, h2, h3, h4]
  · intro response payload h1 h2 h3 h4
    simp [RetrievalAgent.act, RetrievalAgent.decide, h1, h2, h3, h4]
  · intro response h1 h2
    simp [RetrievalAgent.act, RetrievalAgent.decide, h1, h2]

/-- Witness for C3: a 200 response with two articles yields those two
articles; a 200 response without the field, and a 404 response, both yield
the empty sequence. -/
theorem retrieval_act_articles_witness :
    RetrievalAgent.act
      (fun _ => Except.ok ⟨200, Except.ok ⟨some [⟨some "a"⟩, ⟨none⟩]⟩⟩) "k" "t" =
      Except.ok [⟨some "a"⟩, ⟨none⟩] ∧
    RetrievalAgent.act (fun _ => Except.ok ⟨200, Except.ok ⟨none⟩⟩) "k" "t" =
      Except.ok [] ∧
    RetrievalAgent.act (fun _ => Except.ok ⟨404, Except.ok ⟨none⟩⟩) "k" "t" =
      Except.ok [] := by
  refine ⟨(retrieval_act_articles _ "k" "t").1 _ _ _ rfl rfl rfl rfl,
         (retrieval_act_articles _ "k" "t").2.1 _ _ rfl rfl rfl rfl,
         (retrieval_act_articles _ "k" "t").2.2 _ rfl (by decide)⟩

/-- Counterexample to C4 as stated: a network exception raised by the query
is not absorbed inside the Retrieval stage — `act` propagates it to its
caller instead of degrading to the empty article collection. -/
theorem retrieval_absorbs_counterexample :
    RetrievalAgent.act (fun _ => Except.error "connection refused") "k" "t" =
      Except.error "connection refused" ∧
    RetrievalAgent.act (fun _ => Except.error "connection refused") "k" "t" ≠
      Except.ok [] := by
  refine ⟨rfl, ?_⟩
  simp [RetrievalAgent.act, RetrievalAgent.decide]

/-- Claim C4 (amended): a non-success response is absorbed locally by the
Retrieval stage and degrades to an empty article collection, so the
workflow continues with zero summaries; but a network exception raised by
the query is not absorbed — it propagates out of `act` and aborts the
run. -/
theorem retrieval_failure_handling
    (httpGet : QueryParams → Except Err Response) (api_key topic : String) :
    (∀ response, httpGet ⟨topic, api_key⟩ = Except.ok response →
        response.status_code ≠ 200 →
        RetrievalAgent.act httpGet api_key topic = Except.ok []) ∧
    (∀ e, httpGet ⟨topic, api_key⟩ = Except.error e →
        RetrievalAgent.act httpGet api_key topic = Except.error e) := by
  constructor
  · intro response h1 h2
    simp [RetrievalAgent.act, RetrievalAgent.decide, h1, h2]
  · intro e h1
    simp [RetrievalAgent.act, RetrievalAgent.decide, h1]

/-- Witness for C4 (amended): a 500 response degrades to the empty article
collection, while a raised network exception propagates. -/
theorem retrieval_failure_handling_witness :
    RetrievalAgent.act (fun _ => Except.ok ⟨500, Except.ok ⟨none⟩⟩) "k" "t" =
      Except.ok [] ∧
    RetrievalAgent.act (fun _ => Except.error "read timed out") "k" "t" =
      Except.error "read timed out" := by
  refine ⟨(retrieval_failure_handling _ "k" "t").1 _ rfl (by decide),
         (retrieval_failure_handling _ "k" "t").2 _ rfl⟩

theorem decideTrace_fst_eq_map
    (complete : CompletionRequest → Except Err Completion) (articles : List Article) :
    (SummarizationAgent.decideTrace complete articles).1 =
      articles.map (SummarizationAgent.summarizeOne complete) := by
  induction articles with
  | nil => rfl
  | cons article rest ih =>
    by_cases hc : article.content.getD "" = ""
    · simp [SummarizationAgent.decideTrace, SummarizationAgent.summarizeOne, hc, ih]
    · simp [SummarizationAgent.decideTrace, SummarizationAgent.summarizeOne, hc, ih]

theorem decideTrace_snd_eq_filterMap
    (complete : CompletionRequest → Except Err Completion) (articles : List Article) :
    (SummarizationAgent.decideTrace complete articles).2 =
      articles.filterMap (fun a =>
        if a.content.getD "" = "" then none
        else some (summarizeRequest (a.content.getD ""))) := by
  induction articles with
  | nil => rfl
  | cons article rest ih =>
    by_cases hc : article.content.getD "" = ""
    · simp [SummarizationAgent.decideTrace, hc, ih]
    · simp [SummarizationAgent.decideTrace, hc, ih]

/-- Counterexample to C2 as stated: a successful model call whose
completion text strips to the empty string produces the empty string as
that article's element — which is not a non-empty derived string and is
neither placeholder. -/
theorem summarization_shape_counterexample :
    SummarizationAgent.act (fun _ => Except.ok ⟨[⟨""⟩]⟩) [⟨some "x"⟩] = [""] ∧
    ("" : String) ≠ "No content to summarize." ∧
    ("" : String) ≠ "Summary unavailable." := by
  refine ⟨rfl, by decide, by decide⟩

/-- Claim C2 (amended): Summarization's `act` returns a list of the same
length and order as the perceived articles, the i-th element being how the
loop treats the i-th article: the empty-content placeholder when that
article's content is empty or absent, and otherwise either the failure
placeholder (when the model call raised, or returned no choices) or the
stripped completion text of a successful call — which may itself be empty.
Length preservation holds for arbitrary per-element outcomes. -/
theorem summarization_act_shape
    (complete : CompletionRequest → Except Err Completion) (articles : List Article) :
    (SummarizationAgent.act complete articles).length = articles.length ∧
    (∀ i : Nat, (SummarizationAgent.act complete articles)[i]? =
      (articles[i]?).map (SummarizationAgent.summarizeOne complete)) ∧
    (∀ article : Article,
      (article.content.getD "" = "" →
        SummarizationAgent.summarizeOne complete article = "No content to summarize.") ∧
      (article.content.getD "" ≠ "" →
        SummarizationAgent.summarizeOne complete article = "Summary unavailable." ∨
        ∃ response choice,
          complete (summarizeRequest (article.content.getD "")) = Except.ok response ∧
          response.choices.head? = some choice ∧
          SummarizationAgent.summarizeOne complete article = pyStrip choice.text)) := by
  refine ⟨?_, ?_, ?_⟩
  · simp [SummarizationAgent.act, SummarizationAgent.decide, decideTrace_fst_eq_map]
  · intro i
    simp [SummarizationAgent.act, SummarizationAgent.decide, decideTrace_fst_eq_map,
      List.getElem?_map]
  · intro article
    constructor
    · intro hc
      simp [SummarizationAgent.summarizeOne, hc]
    · intro hc
      cases hr : complete (summarizeRequest (article.content.getD "")) with
      | error e =>
        left
        simp [SummarizationAgent.summarizeOne, hc, hr]
      | ok response =>
        cases hch : response.choices.head? with
        | none =>
          left
          simp [SummarizationAgent.summarizeOne, hc, hr, hch]
        | some choice =>
          right
          refine ⟨response, choice, rfl, hch,
            by simp [SummarizationAgent.summarizeOne, hc, hr, hch]⟩

/-- Witness for C2 (amended): with a model service that always raises,
a no-content article and a content-bearing article map to the two
placeholders, and the length is preserved. -/
theorem summarization_act_shape_witness :
    (SummarizationAgent.act (fun _ => Except.error "quota") [⟨none⟩, ⟨some "x"⟩]).length = 2 ∧
    (SummarizationAgent.act (fun _ => Except.error "quota") [⟨none⟩, ⟨some "x"⟩])[0]? =
      some "No content to summarize." ∧
    SummarizationAgent.summarizeOne (fun _ => Except.error "quota") ⟨none⟩ =
      "No content to summarize." ∧
    SummarizationAgent.summarizeOne (fun _ => Except.error "quota") ⟨some "x"⟩ =
      "Summary unavailable." := by
  have h := summarization_act_shape (fun _ => Except.error "quota") [⟨none⟩, ⟨some "x"⟩]
  refine ⟨h.1, (h.2.1 0).trans rfl, (h.2.2 ⟨none⟩).1 rfl, ?_⟩
  rcases (h.2.2 ⟨some "x"⟩).2 (by decide) with h3 | ⟨response, choice, hcall, _, _⟩
  · exact h3
  · exact absurd hcall (by simp)

/-- Counterexample to C5 as stated: the fixed placeholders the code appends
are "No content to summarize." and "Summary unavailable.", not the claim's
exact strings "no content to summarize" and "summary unavailable". -/
theorem summarization_placeholder_strings_counterexample :
    SummarizationAgent.decide (fun _ => Except.error "net") [⟨some ""⟩] =
      ["No content to summarize."] ∧
    ("No content to summarize." : String) ≠ "no content to summarize" ∧
    SummarizationAgent.decide (fun _ => Except.error "net") [⟨some "x"⟩] =
      ["Summary unavailable."] ∧
    ("Summary unavailable." : String) ≠ "summary unavailable" := by
  refine ⟨rfl, by decide, rfl, by decide⟩

/-- Claim C5 (amended): for every article processed by Summarization: if
its content field is empty or absent, the fixed placeholder
"No content to summarize." is placed at that article's position and no
model-inference call is issued for it — the calls issued are exactly one
request per article with non-empty content, in order; if a model call is
issued and raises, the fixed placeholder "Summary unavailable." is placed
at that position instead of propagating the error. -/
theorem summarization_placeholders_and_calls
    (complete : CompletionRequest → Except Err Completion) (articles : List Article) :
    (SummarizationAgent.decideTrace complete articles).2 =
      articles.filterMap (fun a =>
        if a.content.getD "" = "" then none
        else some (summarizeRequest (a.content.getD ""))) ∧
    (∀ (i : Nat) (a : Article), articles[i]? = some a → a.content.getD "" = "" →
      (SummarizationAgent.decide complete articles)[i]? =
        some "No content to summarize.") ∧
    (∀ (i : Nat) (a : Article) (e : Err), articles[i]? = some a → a.content.getD "" ≠ "" →
      complete (summarizeRequest (a.content.getD "")) = Except.error e →
      (SummarizationAgent.decide complete articles)[i]? =
        some "Summary unavailable.") := by
  refine ⟨decideTrace_snd_eq_filterMap complete articles, ?_, ?_⟩
  · intro i a ha hc
    simp [SummarizationAgent.decide, decideTrace_fst_eq_map, List.getElem?_map, ha,
      SummarizationAgent.summarizeOne, hc]
  · intro i a e ha hc hr
    simp [SummarizationAgent.decide, decideTrace_fst_eq_map, List.getElem?_map, ha,
      SummarizationAgent.summarizeOne, hc, hr]

/-- Witness for C5 (amended): over one empty-content and one
content-bearing article with a raising model service, exactly one request
is issued (for the content-bearing article) and both placeholders land at
their positions. -/
theorem summarization_placeholders_and_calls_witness :
    (SummarizationAgent.decideTrace (fun _ => Except.error "down")
      [⟨some ""⟩, ⟨some "x"⟩]).2 = [summarizeRequest "x"] ∧
    (SummarizationAgent.decide (fun _ => Except.error "down")
      [⟨some ""⟩, ⟨some "x"⟩])[0]? = some "No content to summarize." ∧
    (SummarizationAgent.decide (fun _ => Except.error "down")
      [⟨some ""⟩, ⟨some "x"⟩])[1]? = some "Summary unavailable." := by
  have h := summarization_placeholders_and_calls (fun _ => Except.error "down")
    [⟨some ""⟩, ⟨some "x"⟩]
  exact ⟨h.1.trans rfl, h.2.1 0 ⟨some ""⟩ rfl rfl,
    h.2.2 1 ⟨some "x"⟩ "down" rfl (by decide) rfl⟩

theorem writeAll_no_fault (summaries : List String) :
    ∀ (i : Nat) (c : String),
      FileStorageAgent.writeAll (fun _ => none) i summaries ⟨c⟩ =
        (⟨c ++ storedText summaries⟩, Except.ok ()) := by
  induction summaries with
  | nil =>
    intro i c
    simp [FileStorageAgent.writeAll, storedText]
  | cons s rest ih =>
    intro i c
    simp [FileStorageAgent.writeAll, storedText, ih (i + 1), String.append_assoc]

/-- Claim C6: with no open or write failure, Storage's `act` leaves in the
fixed output location exactly each summary followed by a blank-line
separator, in input order — fully replacing whatever content `file` held
before — and returns the fixed confirmation message produced by
`decide`. -/
theorem storage_act_writes_all (summaries : List String) (file : OutputFile) :
    FileStorageAgent.act none (fun _ => none) summaries file =
      (⟨storedText summaries⟩, Except.ok FileStorageAgent.decide) := by
  simp [FileStorageAgent.act, writeAll_no_fault summaries 0 ""]

/-- Claim C7: Storage's `act` is idempotent on the output artifact: if one
run succeeds, running `act` again with the same perceived summaries from
the file state the first run produced yields that very same file state
(full overwrite, not append). -/
theorem storage_act_idempotent (openFault : Option Err) (writeFault : Nat → Option Err)
    (summaries : List String) (file file1 : OutputFile) (msg : String)
    (h : FileStorageAgent.act openFault writeFault summaries file = (file1, Except.ok msg)) :
    FileStorageAgent.act openFault writeFault summaries file1 = (file1, Except.ok msg) := by
  cases openFault with
  | some e => simp [FileStorageAgent.act] at h
  | none => exact h

/-- Witness for C7: writing ["alpha"] over the file produced by a first
identical run returns that same file content again. -/
theorem storage_act_idempotent_witness :
    FileStorageAgent.act none (fun _ => none) ["alpha"] ⟨"alpha\n\n"⟩ =
      (⟨"alpha\n\n"⟩, Except.ok FileStorageAgent.decide) :=
  storage_act_idempotent none (fun _ => none) ["alpha"] ⟨"old"⟩ ⟨"alpha\n\n"⟩
    FileStorageAgent.decide rfl

theorem writeAll_first_fault (writeFault : Nat → Option Err) (e : Err) :
    ∀ (i : Nat) (summaries : List String) (k : Nat) (file : OutputFile),
      (∀ j : Nat, j < i → writeFault (k + j) = none) →
      writeFault (k + i) = some e →
      i < summaries.length →
      (FileStorageAgent.writeAll writeFault k summaries file).2 = Except.error e := by
  intro i
  induction i with
  | zero =>
    intro summaries k file _ hf hlen
    cases summaries with
    | nil => simp at hlen
    | cons s rest =>
      have h0 : writeFault k = some e := by simpa using hf
      simp [FileStorageAgent.writeAll, h0]
  | succ n ih =>
    intro summaries k file hnone hf hlen
    cases summaries with
    | nil => simp at hlen
    | cons s rest =>
      have h0 : writeFault k = none := by simpa using hnone 0 (Nat.succ_pos n)
      simp only [FileStorageAgent.writeAll, h0]
      apply ih rest (k + 1) ⟨file.content ++ s ++ "\n\n"⟩
      · intro j hj
        have hkj : k + 1 + j = k + (j + 1) := by omega
        rw [hkj]
        exact hnone (j + 1) (by omega)
      · have hkn : k + 1 + n = k + (n + 1) := by omega
        rw [hkn]
        exact hf
      · simpa using hlen

/-- Counterexample to C8 as stated: Storage is not the only stage whose
own-domain failure is fatal — a network exception inside Retrieval also
propagates to the caller instead of being absorbed (shown beside a fatal
Storage open failure). -/
theorem storage_only_fatal_counterexample :
    RetrievalAgent.act (fun _ => Except.error "name resolution failed") "k" "t" =
      Except.error "name resolution failed" ∧
    RetrievalAgent.act (fun _ => Except.error "name resolution failed") "k" "t" ≠
      Except.ok [] ∧
    FileStorageAgent.act (some "disk full") (fun _ => none) ["s"] ⟨"prior"⟩ =
      (⟨"prior"⟩, Except.error "disk full") := by
  refine ⟨rfl, ?_, rfl⟩
  simp [RetrievalAgent.act, RetrievalAgent.decide]

/-- Claim C8 (amended): a failure to open or to write the output
destination is not caught inside the Storage stage — `act` propagates it to
the caller, aborting the run; but Storage is not the only stage whose
own-domain failure is fatal: a network exception raised inside Retrieval
propagates as well (Input raises nothing and Summarization absorbs its
model-call failures locally). -/
theorem storage_failure_propagates
    (writeFault : Nat → Option Err) (summaries : List String) (file : OutputFile) :
    (∀ e, FileStorageAgent.act (some e) writeFault summaries file =
      (file, Except.error e)) ∧
    (∀ (i : Nat) (e : Err), writeFault i = some e →
      (∀ j : Nat, j < i → writeFault j = none) → i < summaries.length →
      (FileStorageAgent.act none writeFault summaries file).2 = Except.error e) ∧
    (∀ (e : Err) (httpGet : QueryParams → Except Err Response) (api_key topic : String),
      httpGet ⟨topic, api_key⟩ = Except.error e →
      RetrievalAgent.act httpGet api_key topic = Except.error e) := by
  refine ⟨fun e => rfl, ?_, ?_⟩
  · intro i e hf hnone hlen
    have hz1 : ∀ j : Nat, j < i → writeFault (0 + j) = none := by
      intro j hj
      simpa using hnone j hj
    have hz2 : writeFault (0 + i) = some e := by simpa using hf
    have h := writeAll_first_fault writeFault e i summaries 0 ⟨""⟩ hz1 hz2 hlen
    unfold FileStorageAgent.act
    cases hw : FileStorageAgent.writeAll writeFault 0 summaries ⟨""⟩ with
    | mk file1 r =>
      rw [hw] at h
      cases r with
      | ok u => simp at h
      | error e1 =>
        simp at h
        simp [h]
  · intro e httpGet api_key topic h1
    simp [RetrievalAgent.act, RetrievalAgent.decide, h1]

/-- Witness for C8 (amended): an open failure propagates, a failure on the
second write call propagates, and a Retrieval network exception
propagates. -/
theorem storage_failure_propagates_witness :
    FileStorageAgent.act (some "permission denied")
      (fun i => if i = 1 then some "disk full" else none) ["a", "b", "c"] ⟨"c"⟩ =
      (⟨"c"⟩, Except.error "permission denied") ∧
    (FileStorageAgent.act none (fun i => if i = 1 then some "disk full" else none)
      ["a", "b", "c"] ⟨"c"⟩).2 = Except.error "disk full" ∧
    RetrievalAgent.act (fun _ => Except.error "reset by peer") "k" "t" =
      Except.error "reset by peer" := by
  have h := storage_failure_propagates (fun i => if i = 1 then some "disk full" else none)
    ["a", "b", "c"] ⟨"c"⟩
  refine ⟨h.1 "permission denied", h.2.1 1 "disk full" rfl ?_ (by decide),
    h.2.2 "reset by peer" _ "k" "t" rfl⟩
  intro j hj
  have hj0 : j = 0 := by omega
  subst hj0
  rfl

/-- Counterexample to C9 as stated: with both credentials present in the
environment but OPENAI_API_KEY bound to the empty string, startup still
raises the configuration error, so "if both are present, startup proceeds"
fails on the code. -/
theorem startup_present_empty_counterexample :
    (envEmptyOpenAI "OPENAI_API_KEY").isSome = true ∧
    (envEmptyOpenAI "NEWS_API_KEY").isSome = true ∧
    credentialCheck envEmptyOpenAI =
      Except.error "The environment variable OPENAI_API_KEY is not set." := by
  refine ⟨by decide, by decide, rfl⟩

/-- Claim C9 (amended): if either mandatory environment credential is
absent — or present but empty, which the code's falsiness test treats
identically — the module raises a configuration error naming the specific
variable (OPENAI_API_KEY is checked first), before any stage executes and
before any network call is attempted (the run trace is empty); if both are
present and non-empty, startup proceeds into the workflow run. -/
theorem startup_credentials {V : Type} (env : String → Option String)
    (agents : List (AgentSpec V)) (input_data : V) :
    (pyFalsy (env "OPENAI_API_KEY") = true →
      moduleStartup env agents input_data =
        ([], Except.error "The environment variable OPENAI_API_KEY is not set.")) ∧
    (pyFalsy (env "OPENAI_API_KEY") = false → pyFalsy (env "NEWS_API_KEY") = true →
      moduleStartup env agents input_data =
        ([], Except.error "The environment variable NEWS_API_KEY is not set.")) ∧
    (pyFalsy (env "OPENAI_API_KEY") = false → pyFalsy (env "NEWS_API_KEY") = false →
      moduleStartup env agents input_data = Workflow.run ⟨agents⟩ input_data) := by
  refine ⟨?_, ?_, ?_⟩
  · intro h1
    simp [moduleStartup, credentialCheck, h1]
  · intro h1 h2
    simp [moduleStartup, credentialCheck, h1, h2]
  · intro h1 h2
    simp [moduleStartup, credentialCheck, h1, h2]

/-- Witness for C9 (amended): an absent OPENAI_API_KEY and an absent
NEWS_API_KEY each raise their named error with an empty run trace, and a
fully populated environment proceeds into the workflow run. -/
theorem startup_credentials_witness :
    moduleStartup (fun _ => none) ([] : List (AgentSpec Nat)) 0 =
      ([], Except.error "The environment variable OPENAI_API_KEY is not set.") ∧
    moduleStartup (fun k => if k = "OPENAI_API_KEY" then some "sk" else none)
      ([] : List (AgentSpec Nat)) 0 =
      ([], Except.error "The environment variable NEWS_API_KEY is not set.") ∧
    moduleStartup (fun _ => some "sk") ([] : List (AgentSpec Nat)) 0 =
      Workflow.run ⟨[]⟩ 0 := by
  refine ⟨(startup_credentials (fun _ => none) [] 0).1 rfl,
    (startup_credentials (fun k => if k = "OPENAI_API_KEY" then some "sk" else none) [] 0).2.1
      (by decide) (by decide),
    (startup_credentials (fun _ => some "sk") [] 0).2.2 rfl rfl⟩

end AgentPy
